import Mathlib

/-!
# Verification of hiberman's resume path (`src/hiberman/src/resume.rs`)

This file gives a shallow embedding of the hibernate-resume orchestration
implemented in `hiberman/src/resume.rs` (with supporting definitions from
`hiberman/src/hiberutil.rs`), and proves properties about the embedded
definitions.

Modelling conventions:
* External collaborators (volume manager, snapshot device, powerd, D-Bus,
  cryptohome, the log/metrics sinks) are modelled by environment records that
  fix the outcome (success/failure) of each fallible external call, in the
  order the calls appear in the source.
* Fallible Rust functions returning `anyhow::Result` are modelled with
  `Except RError` (when they cannot panic) or `RunRes` (when a Rust panic is
  reachable).  A Rust panic is modelled by `RunRes.panicked`, and a successful
  `atomic_restore` (which never returns control) by `RunRes.noReturn`.
* Machine integers (`u64`, `usize`) are modelled by `Nat`; the only arithmetic
  on them in the modelled code (`min`, `*`, `/`, and the loop's
  `max_preload_bytes - bytes_preloaded`) never overflows or underflows under
  the invariants proved below, so plain `Nat` arithmetic coincides with the
  `u64` semantics.
* The persisted hibernate cookie and the hibernating-user file are modelled
  as fields of the conductor state; their reads and durable writes are
  modelled as reliable (the spec requires cookie writes to be durable).
* The orchestration functions additionally return a trace (`List Event`) of
  the externally observable steps relevant to the ordering claims, emitted in
  the order the corresponding source calls occur.
-/

namespace Hiberman

/-- Modelled from the spec: `cookie.rs` is not under `src/`; the spec's data
model (§3) lists the closed set of persisted cookie values
`NoResume`, `ResumeInProgress`, `ResumeAborting`, `EmergencyReboot`. -/
inductive HibernateCookieValue where
  | NoResume
  | ResumeInProgress
  | ResumeAborting
  | EmergencyReboot
deriving DecidableEq, Repr

/-- Modelled from the spec: `cookie_description` lives in the absent
`cookie.rs`; it renders a human-readable description of a cookie value and is
only used inside logged/error strings. -/
def cookie_description : HibernateCookieValue → String
  | .NoResume => "no resume"
  | .ResumeInProgress => "resume in progress"
  | .ResumeAborting => "resume aborting"
  | .EmergencyReboot => "emergency reboot"

/-- The variants of `hiberutil::HibernateError` constructed in `resume.rs`
(the source enum has further variants that the resume path never builds). -/
inductive HibernateError where
  | CookieError (msg : String)
  | HibernateNotSupportedError (reason : String)
  | KeyRetrievalError
  | UserMismatchError
deriving DecidableEq, Repr

/-- An `anyhow::Error` flowing through the resume path: either a typed
`HibernateError` or an error produced by an external collaborator /
`anyhow::Context` message. -/
inductive RError where
  | hibernate (e : HibernateError)
  | external (msg : String)
deriving DecidableEq, Repr

/-- Outcome of running a fallible Rust function that may also panic.
`noReturn` models a successful `atomic_restore`: control never comes back. -/
inductive RunRes (α : Type) where
  | ok (a : α)
  | err (e : RError)
  | panicked (msg : String)
  | noReturn
deriving DecidableEq, Repr

/-- `TPM_SEED_SIZE` from `resume.rs`: the expected size of a TPM key. -/
def TPM_SEED_SIZE : Nat := 32

/-- The part of the filesystem visible to `get_tpm_derived_integrity_key`:
the content of `/run/hiberman/tpm_seed` (`none` = the file is absent). -/
structure TpmSeedFs where
  tpmSeedFile : Option (List Nat)
deriving DecidableEq, Repr

/-- `ResumeConductor::get_tpm_derived_integrity_key`: open the TPM seed file
(fails if absent), immediately unlink it, read its full contents, and reject
any content whose length is not exactly `TPM_SEED_SIZE` with
`KeyRetrievalError`.  Returns the resulting key (the `SecureBlob` content)
and the filesystem after the call. -/
def get_tpm_derived_integrity_key (fs : TpmSeedFs) :
    Except RError (List Nat) × TpmSeedFs :=
  match fs.tpmSeedFile with
  | none =>
      -- `File::open(TPM_SEED_FILE)?` fails: the file does not exist.
      (.error (.external "No such file or directory"), fs)
  | some buf =>
      -- Now that we have the file open, immediately unlink it.
      let fs' : TpmSeedFs := { tpmSeedFile := none }
      -- `f.read_to_end(&mut buf)?` still reads through the open descriptor.
      if buf.length ≠ TPM_SEED_SIZE then
        (.error (.hibernate .KeyRetrievalError), fs')
      else
        (.ok buf, fs')

/-- `PreloadStats` from `resume.rs`. -/
structure PreloadStats where
  bytes_preloaded : Nat
  datarate_mbs : Nat
deriving DecidableEq, Repr

/-- The eventual result of the preloader worker thread, as observed by
`JoinHandle::join`: the worker returned `Ok`, returned an error, or
panicked. -/
inductive JoinOutcome where
  | ok
  | workerErr (msg : String)
  | workerPanic (msg : String)
deriving DecidableEq, Repr

/-- `ImageDataPreloader` handle state: `handle` is the `Option<JoinHandle>`
(`none` once taken by `stop`), holding the worker's eventual join outcome;
`stopSignalled` records that `stop_sender.try_send(())` was issued;
`maxPreloadBytes` is the cap passed to `new`. -/
structure ImageDataPreloader where
  handle : Option JoinOutcome
  stopSignalled : Bool
  maxPreloadBytes : Nat
deriving DecidableEq, Repr

/-- `ImageDataPreloader::new(max_preload_bytes)`: spawns the worker (whose
eventual join outcome is the environment-provided `j`) and keeps the join
handle. -/
def ImageDataPreloader.new (max_preload_bytes : Nat) (j : JoinOutcome) :
    ImageDataPreloader :=
  { handle := some j, stopSignalled := false, maxPreloadBytes := max_preload_bytes }

/-- `ImageDataPreloader::stop`: issue the (ignored, non-blocking) stop signal,
then take the join handle.  If the handle was already taken, fail with the
`anyhow` context error; otherwise join, logging (and swallowing) any
worker-reported error or panic, and return `Ok(())`. -/
def ImageDataPreloader.stop (p : ImageDataPreloader) :
    RunRes Unit × ImageDataPreloader :=
  -- let _ = self.stop_sender.try_send(());
  let p := { p with stopSignalled := true }
  match p.handle with
  | none => (.err (.external "preload thread is already stopped"), p)
  | some _ =>
      -- handle.join(): worker errors and panics are logged, not propagated.
      (.ok (), { p with handle := none })

/-- The per-step cap on mapped regions in `preload_data`
(`max_region_size = 128 * 1024 * 1024`). -/
def MAX_REGION_SIZE : Nat := 128 * 1024 * 1024

/-- One iteration's external input to the preload worker loop: the
cancellation channel has a message (or is disconnected), `preload_region`
fails with an I/O error, or the iteration proceeds normally. -/
inductive IterInput where
  | stopSignal
  | ioError
  | ok
deriving DecidableEq, Repr

/-- How the `preload_data` loop left off (with the value of the local
`bytes_preloaded` at that point): it hit the byte cap, it saw the stop
signal, `preload_region` failed (the worker returns `Err` without recording
stats), or the supplied input trace ran out while the loop was still
going. -/
inductive LoopExit where
  | completed (bytes : Nat)
  | cancelled (bytes : Nat)
  | failed (bytes : Nat)
  | running (bytes : Nat)
deriving DecidableEq, Repr

/-- The `bytes_preloaded` value carried by a `LoopExit`. -/
def LoopExit.bytes : LoopExit → Nat
  | .completed b => b
  | .cancelled b => b
  | .failed b => b
  | .running b => b

/-- The `loop` in `ImageDataPreloader::preload_data`, one `IterInput`
consumed per iteration: check the stop channel, preload
`min(max_region_size, max_preload_bytes - bytes_preloaded)` bytes, advance
the counter, and break when the cap is reached. -/
def preload_loop (max_preload_bytes : Nat) :
    List IterInput → Nat → LoopExit
  | [], bytes_preloaded => .running bytes_preloaded
  | .stopSignal :: _, bytes_preloaded => .cancelled bytes_preloaded
  | .ioError :: _, bytes_preloaded => .failed bytes_preloaded
  | .ok :: rest, bytes_preloaded =>
      let region_size := min MAX_REGION_SIZE (max_preload_bytes - bytes_preloaded)
      let bytes' := bytes_preloaded + region_size
      if bytes' = max_preload_bytes then .completed bytes'
      else preload_loop max_preload_bytes rest bytes'

/-- `ImageDataPreloader::preload_data`, the worker thread body: resolve and
open the buffer device (two fallible steps), run the preload loop, then
record the final stats, computing the data rate as
`(bytes_preloaded / (1024 * 1024)) / duration.as_secs()` — a Rust integer
division that panics when `duration.as_secs() = 0`.  The second component is
the shared stats cell (initialized to zeroes by `new`); `bytes_preloaded` is
stored before the data-rate division is attempted.  The result is `none`
when the input trace ran out before the loop finished (the execution is
still inside the loop). -/
def preload_data (max_preload_bytes : Nat) (bufferDevOk fileOpenOk : Bool)
    (inputs : List IterInput) (durationSecs : Nat) :
    Option (RunRes Unit × PreloadStats) :=
  if ¬ bufferDevOk then
    some (.err (.external "Failed to determine hiberimage buffer device for preloading"),
          ⟨0, 0⟩)
  else if ¬ fileOpenOk then
    some (.err (.external "Failed to open hiberimage buffer device"), ⟨0, 0⟩)
  else
    match preload_loop max_preload_bytes inputs 0 with
    | .running _ => none
    | .failed _ =>
        -- `preload_region(..).context(..)?`: early return, stats untouched.
        some (.err (.external "Failed to preload image"), ⟨0, 0⟩)
    | .completed b =>
        if durationSecs = 0 then
          some (.panicked "attempt to divide by zero", ⟨b, 0⟩)
        else
          some (.ok (), ⟨b, b / (1024 * 1024) / durationSecs⟩)
    | .cancelled b =>
        if durationSecs = 0 then
          some (.panicked "attempt to divide by zero", ⟨b, 0⟩)
        else
          some (.ok (), ⟨b, b / (1024 * 1024) / durationSecs⟩)

/-- The slice of the volume-manager state touched by the resume path. -/
structure VolumeState where
  thinpoolRw : Bool
  hiberimageExists : Bool
  hiberimageLockedDown : Bool
deriving DecidableEq, Repr

/-- `ResumeConductor` state plus the persisted state it owns: the command
line options (`dry_run`), the persisted hibernate cookie, the content of the
hibernating-user file (`none` = absent/unreadable), `current_user`,
`tried_to_resume`, the optional preloader handle, the volume-manager slice,
and the TPM seed file content. -/
structure ConductorState where
  dryRun : Bool
  cookie : HibernateCookieValue
  hibernatingUserFile : Option String
  currentUser : Option String
  triedToResume : Bool
  imagePreloader : Option ImageDataPreloader
  volumes : VolumeState
  tpmSeedFile : Option (List Nat)
deriving DecidableEq, Repr

/-- `ResumeConductor::decide_to_resume`: evaluate the hibernate cookie and
decide whether to continue with resume.  Returns the result together with
the state after the call (cookie rewrites, `tried_to_resume`). -/
def decide_to_resume (s : ConductorState) : Except RError Unit × ConductorState :=
  let cookie := s.cookie
  if cookie = HibernateCookieValue.ResumeInProgress ∨ s.dryRun then
    if cookie = HibernateCookieValue.ResumeInProgress then
      match s.hibernatingUserFile with
      | none =>
          -- `Self::get_hibernating_user()?` fails to read the file.
          (.error (.external "failed to read hibernating user file"), s)
      | some hibernating_user =>
          if s.currentUser ≠ some hibernating_user then
            (.error (.hibernate .UserMismatchError),
             { s with cookie := HibernateCookieValue.NoResume })
          else
            (.ok (), { s with triedToResume := true })
    else
      -- "Hibernate cookie was {}, continuing anyway due to --dry-run"
      (.ok (), s)
  else if cookie = HibernateCookieValue.NoResume then
    (.error (.hibernate (.CookieError "No resume pending")), s)
  else
    let s :=
      if cookie = HibernateCookieValue.EmergencyReboot then
        { s with cookie := HibernateCookieValue.NoResume }
      else s
    (.error (.hibernate (.CookieError
       ("Cookie was " ++ cookie_description cookie ++ ", abandoning resume"))), s)

/-- Externally observable steps of the resume orchestration relevant to the
ordering claims, emitted in source order:
* `startPreloader` — `ImageDataPreloader::new` spawns the worker
  (`preload_hiberimage_data`);
* `preloaderStopped` — `ImageDataPreloader::stop` joined the worker;
* `setupSnapshotDevice b` — `setup_snapshot_device(b, ..)` completed its
  `set_block_device` reconfiguration;
* `lockProcessMemory` — `lock_process_memory()` succeeded;
* `openSnapshotDeviceWrite` — `SnapshotDevice::new(SnapshotMode::Write)` in
  `resume_system`;
* `loadImage` — `snap_dev.load_image()` returned successfully;
* `setCookie v` — `set_hibernate_cookie(.., v)` in `resume_system`;
* `freezeUserspace` — `snap_dev.freeze_userspace()` succeeded;
* `atomicRestore` — `launch_resume_image` reached `atomic_restore`. -/
inductive Event where
  | startPreloader
  | preloaderStopped
  | setupSnapshotDevice (new_hiberimage : Bool)
  | lockProcessMemory
  | openSnapshotDeviceWrite
  | loadImage
  | setCookie (v : HibernateCookieValue)
  | freezeUserspace
  | atomicRestore
deriving DecidableEq, Repr

/-- Outcomes of the fallible external calls made by
`ResumeConductor::resume_system`, in source order. -/
structure SystemEnv where
  hibermetaLvOk : Bool
  logFileOk : Bool
  powerdOk : Bool
  snapshotWriteOk : Bool
  loadImageOk : Bool
  resumeReadyOk : Bool
  freezeOk : Bool
  timestampOk : Bool
  metricsFlushOk : Bool
  restoreTimestampOk : Bool
  atomicRestoreOk : Bool
deriving DecidableEq, Repr

/-- The `DBusEvent` values delivered by `DBusServer::wait_for_event`. -/
inductive DBusEvent where
  | userAuthenticated (account_id session_id : String)
  | abortRequest (reason : String)
deriving DecidableEq, Repr

/-- Outcomes of the fallible external calls made by
`ResumeConductor::resume_inner` outside `resume_system`, in source order,
plus the data those calls deliver (D-Bus event, image size, RAM size, the
preloader worker's eventual join outcome). -/
structure ResumeEnv where
  bufferDeviceOk : Bool
  hibermetaForSizeOk : Bool
  readImageSize : Option Nat
  ramSize : Nat
  workerJoin : JoinOutcome
  dbusEvent : Option DBusEvent
  userKeyOk : Bool
  thinpoolRwOk : Bool
  teardownOk : Bool
  setupHiberimageTrueOk : Bool
  setBlockDeviceTrueOk : Bool
  lockdownTrueOk : Bool
  recordUserOk : Bool
  setupHiberimageFalseOk : Bool
  setBlockDeviceFalseOk : Bool
  lockdownFalseOk : Bool
  lockMemoryOk : Bool
  sys : SystemEnv
deriving DecidableEq, Repr

/-- `ResumeConductor::setup_snapshot_device(new_hiberimage, user_key)`:
retrieve the TPM-derived integrity key (consuming the seed file), set up the
hiberimage, and bind the snapshot device to the hiberimage block device
(`SnapshotDevice::new(SnapshotMode::Read)?.set_block_device(..)`).  The
`setupSnapshotDevice` event marks the completed reconfiguration. -/
def setup_snapshot_device (new_hiberimage : Bool) (s : ConductorState)
    (setupHiberimageOk setBlockDeviceOk : Bool) :
    List Event × RunRes Unit × ConductorState :=
  match get_tpm_derived_integrity_key ⟨s.tpmSeedFile⟩ with
  | (.error e, fs) => ([], .err e, { s with tpmSeedFile := fs.tpmSeedFile })
  | (.ok _tpm_key, fs) =>
      let s := { s with tpmSeedFile := fs.tpmSeedFile }
      if ¬ setupHiberimageOk then
        ([], .err (.external "setup_hiberimage failed"), s)
      else
        let s := { s with volumes := { s.volumes with hiberimageExists := true } }
        if ¬ setBlockDeviceOk then
          ([], .err (.external "set_block_device failed"), s)
        else
          ([Event.setupSnapshotDevice new_hiberimage], .ok (), s)

/-- `ResumeConductor::resume_system`: mount hibermeta, open the resume log,
notify powerd, stop the preloader (`self.image_preloader.take().unwrap()`
panics when no preloader was started), open the snapshot device in write
mode, load the image, wait for the resume-ready acknowledgment, write the
`ResumeAborting` tombstone cookie, freeze userspace, record timestamps and
flush metrics, and finally either return `Ok` (dry run) or perform the
atomic restore. -/
def resume_system (s : ConductorState) (env : SystemEnv) :
    List Event × RunRes Unit × ConductorState :=
  if ¬ env.hibermetaLvOk then
    ([], .err (.external "setup_hibermeta_lv failed"), s)
  else if ¬ env.logFileOk then
    ([], .err (.external "LogFile::new failed"), s)
  else if ¬ env.powerdOk then
    ([], .err (.external "Failed to call powerd for imminent resume"), s)
  else
    match s.imagePreloader with
    | none =>
        -- `self.image_preloader.take().unwrap()` on `None`.
        ([], .panicked "called Option::unwrap() on a None value", s)
    | some p =>
        let s := { s with imagePreloader := none }
        match (ImageDataPreloader.stop p).1 with
        | .ok _ =>
            if ¬ env.snapshotWriteOk then
              ([Event.preloaderStopped],
               .err (.external "SnapshotDevice::new failed"), s)
            else if ¬ env.loadImageOk then
              ([Event.preloaderStopped, Event.openSnapshotDeviceWrite],
               .err (.external "load_image failed"), s)
            else if ¬ env.resumeReadyOk then
              ([Event.preloaderStopped, Event.openSnapshotDeviceWrite,
                Event.loadImage],
               .err (.external "wait_for_hibernate_resume_ready failed"), s)
            else
              let s := { s with cookie := HibernateCookieValue.ResumeAborting }
              if ¬ env.freezeOk then
                ([Event.preloaderStopped, Event.openSnapshotDeviceWrite,
                  Event.loadImage, Event.setCookie HibernateCookieValue.ResumeAborting],
                 .err (.external "freeze_userspace failed"), s)
              else if ¬ env.timestampOk then
                ([Event.preloaderStopped, Event.openSnapshotDeviceWrite,
                  Event.loadImage, Event.setCookie HibernateCookieValue.ResumeAborting,
                  Event.freezeUserspace],
                 .err (.external "record_timestamp failed"), s)
              else if ¬ env.metricsFlushOk then
                ([Event.preloaderStopped, Event.openSnapshotDeviceWrite,
                  Event.loadImage, Event.setCookie HibernateCookieValue.ResumeAborting,
                  Event.freezeUserspace],
                 .err (.external "metrics flush failed"), s)
              else if ¬ env.restoreTimestampOk then
                ([Event.preloaderStopped, Event.openSnapshotDeviceWrite,
                  Event.loadImage, Event.setCookie HibernateCookieValue.ResumeAborting,
                  Event.freezeUserspace],
                 .err (.external "record_timestamp failed"), s)
              else if s.dryRun then
                ([Event.preloaderStopped, Event.openSnapshotDeviceWrite,
                  Event.loadImage, Event.setCookie HibernateCookieValue.ResumeAborting,
                  Event.freezeUserspace],
                 .ok (), s)
              else if env.atomicRestoreOk then
                ([Event.preloaderStopped, Event.openSnapshotDeviceWrite,
                  Event.loadImage, Event.setCookie HibernateCookieValue.ResumeAborting,
                  Event.freezeUserspace, Event.atomicRestore],
                 .noReturn, s)
              else
                ([Event.preloaderStopped, Event.openSnapshotDeviceWrite,
                  Event.loadImage, Event.setCookie HibernateCookieValue.ResumeAborting,
                  Event.freezeUserspace, Event.atomicRestore],
                 .err (.external "Resume failed"), s)
        | r => ([], r, s)

/-- The tail of `resume_inner`'s no-resume cleanup (after the preloader was
handled): make the thinpool writable, tear down the hiberimage, re-arm the
snapshot device for a future hibernate, lock it down, record the hibernating
user, and return the original error `e`.  Each `?` propagates its own
error. -/
def resume_failure_tail (e : RError) (s : ConductorState) (env : ResumeEnv) :
    List Event × RunRes Unit × ConductorState :=
  if ¬ env.thinpoolRwOk then
    ([], .err (.external "make_thinpool_rw failed"), s)
  else
    let s := { s with volumes := { s.volumes with thinpoolRw := true } }
    if ¬ env.teardownOk then
      ([], .err (.external "teardown_hiberimage failed"), s)
    else
      let s := { s with volumes := { s.volumes with hiberimageExists := false } }
      let o := setup_snapshot_device true s env.setupHiberimageTrueOk
                 env.setBlockDeviceTrueOk
      match o.2.1 with
      | .ok _ =>
          let s := o.2.2
          if ¬ env.lockdownTrueOk then
            (o.1, .err (.external "lockdown_hiberimage failed"), s)
          else
            let s := { s with volumes := { s.volumes with hiberimageLockedDown := true } }
            -- record_hibernating_user: `self.current_user.as_ref().unwrap()`.
            match s.currentUser with
            | none => (o.1, .panicked "called Option::unwrap() on a None value", s)
            | some u =>
                if ¬ env.recordUserOk then
                  (o.1, .err (.external "failed to write account id"), s)
                else
                  (o.1, .err e, { s with hibernatingUserFile := some u })
      | r => (o.1, r, o.2.2)

/-- The no-resume cleanup of `resume_inner` (run when `decide_to_resume`
returned the error `e`): stop the preloader if one was started
(`ipl.stop()?`), then run the volume cleanup tail. -/
def resume_failure_path (e : RError) (s : ConductorState) (env : ResumeEnv) :
    List Event × RunRes Unit × ConductorState :=
  match s.imagePreloader with
  | none => resume_failure_tail e s env
  | some p =>
      let s := { s with imagePreloader := none }
      match (ImageDataPreloader.stop p).1 with
      | .ok _ =>
          let o := resume_failure_tail e s env
          (Event.preloaderStopped :: o.1, o.2.1, o.2.2)
      | r => ([], r, s)

/-- `ResumeConductor::preload_hiberimage_data`: set up the hiberimage buffer
device, briefly mount hibermeta to read the image size, cap the preload at
33% of RAM, and spawn the `ImageDataPreloader`. -/
def preload_hiberimage_data (s : ConductorState) (env : ResumeEnv) :
    Except RError Unit × ConductorState :=
  if ¬ env.bufferDeviceOk then
    (.error (.external "Failed to set up buffer device for hiberimage"), s)
  else if ¬ env.hibermetaForSizeOk then
    (.error (.external "setup_hibermeta_lv failed"), s)
  else
    match env.readImageSize with
    | none => (.error (.external "read_hiberimage_size failed"), s)
    | some image_size =>
        -- Don't fill up more than 33% of the RAM.
        let preload_bytes := min image_size (env.ramSize * 33 / 100)
        let p := ImageDataPreloader.new preload_bytes env.workerJoin
        (.ok (), { s with imagePreloader := some p })

/-- The straight-line tail of `resume_inner` after `decide_to_resume`
succeeded (source lines 224-241): set up the snapshot device for resuming
(`setup_snapshot_device(false, user_key)`), lock down the hiberimage, pin
process memory with `lock_process_memory`, and call `resume_system`. -/
def resume_prepare_and_launch (s : ConductorState) (env : ResumeEnv) :
    List Event × RunRes Unit × ConductorState :=
  let o := setup_snapshot_device false s env.setupHiberimageFalseOk
             env.setBlockDeviceFalseOk
  match o.2.1 with
  | .ok _ =>
      let s := o.2.2
      if ¬ env.lockdownFalseOk then
        (o.1, .err (.external "lockdown_hiberimage failed"), s)
      else
        let s := { s with volumes :=
          { s.volumes with hiberimageLockedDown := true } }
        if ¬ env.lockMemoryOk then
          (o.1, .err (.external "Cannot lock process memory"), s)
        else
          let o2 := resume_system s env.sys
          (o.1 ++ Event.lockProcessMemory :: o2.1, o2.2.1, o2.2.2)
  | r => (o.1, r, o.2.2)

/-- `resume_inner` from the authentication wait onward: wait for the D-Bus
event (an abort request stops the preloader before propagating), record the
sanitized current user and fetch the user key, run `decide_to_resume`, and
follow either the no-resume cleanup path or the resume path
(`resume_prepare_and_launch`).  `san` abstracts
`hiberutil::sanitize_username` (lower-casing plus SHA-256 digest; it always
returns `Ok`). -/
def resume_auth_and_beyond (san : String → String) (s : ConductorState)
    (env : ResumeEnv) : List Event × RunRes Unit × ConductorState :=
  match env.dbusEvent with
  | none => ([], .err (.external "wait_for_event failed"), s)
  | some (.abortRequest reason) =>
      match s.imagePreloader with
      | none =>
          ([], .err (.hibernate (.HibernateNotSupportedError reason)), s)
      | some p =>
          let s := { s with imagePreloader := none }
          match (ImageDataPreloader.stop p).1 with
          | .ok _ =>
              ([Event.preloaderStopped],
               .err (.hibernate (.HibernateNotSupportedError reason)), s)
          | r => ([], r, s)
  | some (.userAuthenticated account_id _session_id) =>
      let s := { s with currentUser := some (san account_id) }
      if ¬ env.userKeyOk then
        ([], .err (.external "get_user_key_for_session failed"), s)
      else
        let d := decide_to_resume s
        match d.1 with
        | .error e => resume_failure_path e d.2 env
        | .ok _ => resume_prepare_and_launch d.2 env

/-- `ResumeConductor::resume_inner`: if a resume is pending (the cookie is
`ResumeInProgress`), start the preloader, then proceed with the
authentication wait and everything beyond it. -/
def resume_inner (san : String → String) (s : ConductorState)
    (env : ResumeEnv) : List Event × RunRes Unit × ConductorState :=
  if s.cookie = HibernateCookieValue.ResumeInProgress then
    let pr := preload_hiberimage_data s env
    match pr.1 with
    | .error e => ([], .err e, pr.2)
    | .ok _ =>
        let o := resume_auth_and_beyond san pr.2 env
        (Event.startPreloader :: o.1, o.2.1, o.2.2)
  else
    resume_auth_and_beyond san s env

/-- All traces `resume_system` can produce: prefixes of the full success
trace (the empty trace also covers the early-error and panic exits). -/
def sysTraces : List (List Event) :=
  [[],
   [.preloaderStopped],
   [.preloaderStopped, .openSnapshotDeviceWrite],
   [.preloaderStopped, .openSnapshotDeviceWrite, .loadImage],
   [.preloaderStopped, .openSnapshotDeviceWrite, .loadImage,
    .setCookie .ResumeAborting],
   [.preloaderStopped, .openSnapshotDeviceWrite, .loadImage,
    .setCookie .ResumeAborting, .freezeUserspace],
   [.preloaderStopped, .openSnapshotDeviceWrite, .loadImage,
    .setCookie .ResumeAborting, .freezeUserspace, .atomicRestore]]

/-- All traces `resume_auth_and_beyond` can produce. -/
def authTraces : List (List Event) :=
  [[],
   [.preloaderStopped],
   [.setupSnapshotDevice true],
   [.preloaderStopped, .setupSnapshotDevice true],
   [.setupSnapshotDevice false],
   [.setupSnapshotDevice false, .lockProcessMemory],
   [.setupSnapshotDevice false, .lockProcessMemory, .preloaderStopped],
   [.setupSnapshotDevice false, .lockProcessMemory, .preloaderStopped,
    .openSnapshotDeviceWrite],
   [.setupSnapshotDevice false, .lockProcessMemory, .preloaderStopped,
    .openSnapshotDeviceWrite, .loadImage],
   [.setupSnapshotDevice false, .lockProcessMemory, .preloaderStopped,
    .openSnapshotDeviceWrite, .loadImage, .setCookie .ResumeAborting],
   [.setupSnapshotDevice false, .lockProcessMemory, .preloaderStopped,
    .openSnapshotDeviceWrite, .loadImage, .setCookie .ResumeAborting,
    .freezeUserspace],
   [.setupSnapshotDevice false, .lockProcessMemory, .preloaderStopped,
    .openSnapshotDeviceWrite, .loadImage, .setCookie .ResumeAborting,
    .freezeUserspace, .atomicRestore]]

/-- All traces `resume_inner` can produce: a `resume_auth_and_beyond` trace,
optionally preceded by the preloader start. -/
def innerTraces : List (List Event) :=
  authTraces ++ authTraces.map (Event.startPreloader :: ·)

/-- The preloader worker is fully stopped (signalled and joined) strictly
before event `ev` in trace `t`. -/
def fullyStoppedBefore (t : List Event) (ev : Event) : Prop :=
  Event.preloaderStopped ∈ t ∧
    t.indexOf Event.preloaderStopped < t.indexOf ev

/-- Claim C1 exactly as stated: in every execution of `resume` that proceeds
toward the irreversible restore, the preloader is fully stopped before the
snapshot device is reconfigured for the authoritative reads
(`setup_snapshot_device(false, ..)`) and before process memory is pinned
with `lock_process_memory`. -/
def C1Statement : Prop :=
  ∀ (san : String → String) (s : ConductorState) (env : ResumeEnv),
    Event.atomicRestore ∈ (resume_inner san s env).1 →
    fullyStoppedBefore (resume_inner san s env).1
        (Event.setupSnapshotDevice false) ∧
    fullyStoppedBefore (resume_inner san s env).1 Event.lockProcessMemory

/-- A conductor state with a pending resume, a recorded hibernating user,
a valid TPM seed and no preloader yet: the state at the start of a boot on
which a resume is pending. -/
def s0 : ConductorState :=
  { dryRun := false, cookie := .ResumeInProgress,
    hibernatingUserFile := some "user", currentUser := none,
    triedToResume := false, imagePreloader := none,
    volumes := ⟨false, false, false⟩,
    tpmSeedFile := some (List.replicate 32 0) }

/-- A `resume_system` environment in which every external call succeeds. -/
def sysEnv0 : SystemEnv :=
  { hibermetaLvOk := true, logFileOk := true, powerdOk := true,
    snapshotWriteOk := true, loadImageOk := true, resumeReadyOk := true,
    freezeOk := true, timestampOk := true, metricsFlushOk := true,
    restoreTimestampOk := true, atomicRestoreOk := true }

/-- A `resume_inner` environment in which every external call succeeds and
the authenticating user matches the recorded hibernating user of `s0`. -/
def env0 : ResumeEnv :=
  { bufferDeviceOk := true, hibermetaForSizeOk := true,
    readImageSize := some 1024, ramSize := 3000, workerJoin := .ok,
    dbusEvent := some (.userAuthenticated "user" "sess"), userKeyOk := true,
    thinpoolRwOk := true, teardownOk := true, setupHiberimageTrueOk := true,
    setBlockDeviceTrueOk := true, lockdownTrueOk := true, recordUserOk := true,
    setupHiberimageFalseOk := true, setBlockDeviceFalseOk := true,
    lockdownFalseOk := true, lockMemoryOk := true, sys := sysEnv0 }

/-- `s0` right before `resume_system`: a running preloader handle present. -/
def sPre : ConductorState :=
  { s0 with imagePreloader := some (ImageDataPreloader.new 1024 .ok) }

/-- `s0` with the dry-run override set and no resume pending: the
configuration of claim C9. -/
def s9 : ConductorState :=
  { s0 with dryRun := true, cookie := .NoResume }

/-- C3: integrity-key retrieval opens the TPM seed file and unlinks it
immediately before reading, so the file is absent after any retrieval
attempt regardless of the read's outcome; any content whose length is not
exactly `TPM_SEED_SIZE = 32` bytes yields `KeyRetrievalError`, and a key is
returned only when it is exactly the 32 bytes that were read. -/
theorem C3_integrity_key_contract (fs : TpmSeedFs) :
    (get_tpm_derived_integrity_key fs).2.tpmSeedFile = none ∧
    (∀ buf, fs.tpmSeedFile = some buf → buf.length ≠ TPM_SEED_SIZE →
      (get_tpm_derived_integrity_key fs).1 =
        .error (.hibernate .KeyRetrievalError)) ∧
    (∀ key, (get_tpm_derived_integrity_key fs).1 = .ok key →
      fs.tpmSeedFile = some key ∧ key.length = TPM_SEED_SIZE) := by
  obtain ⟨f⟩ := fs
  match f with
  | none => simp [get_tpm_derived_integrity_key]
  | some buf =>
      by_cases h : buf.length = TPM_SEED_SIZE <;>
        simp_all [get_tpm_derived_integrity_key]

/-- Witness for C3 at a concrete one-byte seed file: the file is gone after
the call and the result is the key-retrieval error. -/
theorem C3_integrity_key_contract_witness :
    (get_tpm_derived_integrity_key ⟨some [7]⟩).2.tpmSeedFile = none ∧
    (get_tpm_derived_integrity_key ⟨some [7]⟩).1 =
      .error (.hibernate .KeyRetrievalError) :=
  ⟨(C3_integrity_key_contract ⟨some [7]⟩).1,
   (C3_integrity_key_contract ⟨some [7]⟩).2.1 [7] rfl (by decide)⟩

/-- C4: with the cookie `ResumeInProgress` and a persisted hibernating-user
record different from the authenticating user's sanitized identity,
`decide_to_resume` returns the user-mismatch error (distinct from the
no-resume-pending cookie error) and rewrites the cookie to `NoResume`
before returning. -/
theorem C4_user_mismatch (s : ConductorState) (hu cu : String)
    (hc : s.cookie = HibernateCookieValue.ResumeInProgress)
    (hr : s.hibernatingUserFile = some hu)
    (hcu : s.currentUser = some cu)
    (hne : cu ≠ hu) :
    (decide_to_resume s).1 = .error (.hibernate .UserMismatchError) ∧
    (decide_to_resume s).2.cookie = HibernateCookieValue.NoResume ∧
    RError.hibernate .UserMismatchError ≠
      RError.hibernate (.CookieError "No resume pending") := by
  refine ⟨?_, ?_, by simp⟩ <;> simp [decide_to_resume, hc, hr, hcu, hne]

/-- Witness for C4: concrete mismatching identities. -/
theorem C4_user_mismatch_witness :
    (decide_to_resume { s0 with currentUser := some "other" }).1 =
      .error (.hibernate .UserMismatchError) ∧
    (decide_to_resume { s0 with currentUser := some "other" }).2.cookie =
      HibernateCookieValue.NoResume :=
  ⟨(C4_user_mismatch _ "user" "other" rfl rfl rfl (by decide)).1,
   (C4_user_mismatch _ "user" "other" rfl rfl rfl (by decide)).2.1⟩

/-- C5: for every cookie value other than `ResumeInProgress`, with the
dry-run override not set, `decide_to_resume` returns an error and leaves
the volume state untouched; the value `EmergencyReboot` is cleared back to
`NoResume` before the error is returned. -/
theorem C5_abnormal_cookie (s : ConductorState)
    (hc : s.cookie ≠ HibernateCookieValue.ResumeInProgress)
    (hd : s.dryRun = false) :
    (∃ e, (decide_to_resume s).1 = .error e) ∧
    (decide_to_resume s).2.volumes = s.volumes ∧
    (s.cookie = HibernateCookieValue.EmergencyReboot →
      (decide_to_resume s).2.cookie = HibernateCookieValue.NoResume) := by
  match h : s.cookie with
  | .ResumeInProgress => exact absurd h hc
  | .NoResume => simp [decide_to_resume, h, hd]
  | .ResumeAborting => simp [decide_to_resume, h, hd]
  | .EmergencyReboot => simp [decide_to_resume, h, hd]

/-- Witness for C5 at the `EmergencyReboot` cookie. -/
theorem C5_abnormal_cookie_witness :
    (∃ e, (decide_to_resume
      { s0 with cookie := HibernateCookieValue.EmergencyReboot }).1 =
        .error e) ∧
    (decide_to_resume
      { s0 with cookie := HibernateCookieValue.EmergencyReboot }).2.cookie =
        HibernateCookieValue.NoResume := by
  have h := C5_abnormal_cookie
    { s0 with cookie := HibernateCookieValue.EmergencyReboot }
    (by decide) rfl
  exact ⟨h.1, h.2.2 rfl⟩

/-- C6: with the cookie `ResumeInProgress` and a hibernating-user record
equal to the authenticating user's sanitized identity, `decide_to_resume`
returns `Ok` and sets `tried_to_resume` to `true`. -/
theorem C6_matching_user (s : ConductorState) (u : String)
    (hc : s.cookie = HibernateCookieValue.ResumeInProgress)
    (hr : s.hibernatingUserFile = some u)
    (hcu : s.currentUser = some u) :
    (decide_to_resume s).1 = .ok () ∧
    (decide_to_resume s).2.triedToResume = true := by
  constructor <;> simp [decide_to_resume, hc, hr, hcu]

/-- Witness for C6: concrete matching identities. -/
theorem C6_matching_user_witness :
    (decide_to_resume { s0 with currentUser := some "user" }).1 = .ok () ∧
    (decide_to_resume { s0 with currentUser := some "user" }).2.triedToResume
      = true :=
  C6_matching_user { s0 with currentUser := some "user" } "user" rfl rfl rfl

/-- The worker loop invariant behind C7: starting at or below the cap, the
`bytes_preloaded` counter stays at or below the cap at every loop exit,
because each step preloads at most `max_preload_bytes - bytes_preloaded`
bytes. -/
theorem preload_loop_bytes_le (max_preload_bytes : Nat)
    (inputs : List IterInput) :
    ∀ b, b ≤ max_preload_bytes →
      (preload_loop max_preload_bytes inputs b).bytes ≤ max_preload_bytes := by
  induction inputs with
  | nil =>
      intro b hb
      simpa [preload_loop, LoopExit.bytes] using hb
  | cons i rest ih =>
      intro b hb
      match i with
      | .stopSignal => simpa [preload_loop, LoopExit.bytes] using hb
      | .ioError => simpa [preload_loop, LoopExit.bytes] using hb
      | .ok =>
          have hr : min MAX_REGION_SIZE (max_preload_bytes - b) ≤
              max_preload_bytes - b := min_le_right _ _
          have hstep : b + min MAX_REGION_SIZE (max_preload_bytes - b) ≤
              max_preload_bytes := by omega
          simp only [preload_loop]
          split
          · next heq => simp [LoopExit.bytes, heq]
          · exact ih _ hstep

/-- The stats part of C7: whenever the worker body finishes (completes, is
cancelled, or aborts on an I/O error), the recorded stats snapshot holds at
most `max_preload_bytes` preloaded bytes. -/
theorem preload_data_stats_le (max_preload_bytes : Nat) (bo fo : Bool)
    (inputs : List IterInput) (secs : Nat) (r : RunRes Unit)
    (st : PreloadStats)
    (h : preload_data max_preload_bytes bo fo inputs secs = some (r, st)) :
    st.bytes_preloaded ≤ max_preload_bytes := by
  have hloop := preload_loop_bytes_le max_preload_bytes inputs 0
    (Nat.zero_le _)
  unfold preload_data at h
  split at h
  · simp only [Option.some.injEq, Prod.mk.injEq] at h
    obtain ⟨-, hst⟩ := h
    rw [← hst]
    exact Nat.zero_le _
  · split at h
    · simp only [Option.some.injEq, Prod.mk.injEq] at h
      obtain ⟨-, hst⟩ := h
      rw [← hst]
      exact Nat.zero_le _
    · split at h
      case _ heq => exact absurd h (by simp)
      case _ b heq =>
          simp only [Option.some.injEq, Prod.mk.injEq] at h
          obtain ⟨-, hst⟩ := h
          rw [← hst]
          exact Nat.zero_le _
      case _ b heq =>
          rw [heq] at hloop
          simp only [LoopExit.bytes] at hloop
          split at h <;>
            (simp only [Option.some.injEq, Prod.mk.injEq] at h
             obtain ⟨-, hst⟩ := h
             rw [← hst]
             exact hloop)
      case _ b heq =>
          rw [heq] at hloop
          simp only [LoopExit.bytes] at hloop
          split at h <;>
            (simp only [Option.some.injEq, Prod.mk.injEq] at h
             obtain ⟨-, hst⟩ := h
             rw [← hst]
             exact hloop)

/-- C7: when `preload_hiberimage_data` starts the preloader it passes the
cap `min(image_size, 33% of total RAM)` to `ImageDataPreloader::new`, and
in every execution of the worker, the `bytes_preloaded` counter at every
loop exit — and the final stats snapshot, whether the worker completed, was
cancelled, or aborted on an I/O error — never exceeds that cap. -/
theorem C7_preload_cap (s : ConductorState) (env : ResumeEnv)
    (image_size : Nat)
    (hb : env.bufferDeviceOk = true) (hh : env.hibermetaForSizeOk = true)
    (hi : env.readImageSize = some image_size) :
    ∃ p, (preload_hiberimage_data s env).2.imagePreloader = some p ∧
      p.maxPreloadBytes = min image_size (env.ramSize * 33 / 100) ∧
      (∀ inputs, (preload_loop p.maxPreloadBytes inputs 0).bytes ≤
        p.maxPreloadBytes) ∧
      (∀ bo fo inputs secs r st,
        preload_data p.maxPreloadBytes bo fo inputs secs = some (r, st) →
        st.bytes_preloaded ≤ p.maxPreloadBytes) := by
  refine ⟨ImageDataPreloader.new
    (min image_size (env.ramSize * 33 / 100)) env.workerJoin, ?_, rfl, ?_, ?_⟩
  · simp [preload_hiberimage_data, hb, hh, hi]
  · intro inputs
    exact preload_loop_bytes_le _ inputs 0 (Nat.zero_le _)
  · intro bo fo inputs secs r st h
    exact preload_data_stats_le _ bo fo inputs secs r st h

/-- Witness for C7 at `s0`/`env0` (image 1024 bytes, RAM 3000 bytes). -/
theorem C7_preload_cap_witness :
    ∃ p, (preload_hiberimage_data s0 env0).2.imagePreloader = some p ∧
      p.maxPreloadBytes = min 1024 (env0.ramSize * 33 / 100) ∧
      (∀ inputs, (preload_loop p.maxPreloadBytes inputs 0).bytes ≤
        p.maxPreloadBytes) ∧
      (∀ bo fo inputs secs r st,
        preload_data p.maxPreloadBytes bo fo inputs secs = some (r, st) →
        st.bytes_preloaded ≤ p.maxPreloadBytes) :=
  C7_preload_cap s0 env0 1024 rfl rfl rfl

/-- C8: `ImageDataPreloader::stop` is idempotent in the claimed sense — with
a live join handle (whatever the worker's eventual outcome, including a
worker error or a worker panic), the first `stop` swallows that outcome and
returns `Ok`, and a second `stop` returns the already-stopped error rather
than re-joining, and in particular never panics. -/
theorem C8_stop_idempotent (p : ImageDataPreloader) (j : JoinOutcome)
    (h : p.handle = some j) :
    p.stop.1 = .ok () ∧
    p.stop.2.handle = none ∧
    p.stop.2.stop.1 = .err (.external "preload thread is already stopped") ∧
    (∀ msg, p.stop.2.stop.1 ≠ RunRes.panicked msg) := by
  refine ⟨?_, ?_, ?_, ?_⟩ <;> simp [ImageDataPreloader.stop, h]

/-- Witness for C8 with a worker that panicked. -/
theorem C8_stop_idempotent_witness :
    (ImageDataPreloader.new 7 (.workerPanic "boom")).stop.1 = .ok () ∧
    (ImageDataPreloader.new 7 (.workerPanic "boom")).stop.2.handle = none ∧
    (ImageDataPreloader.new 7 (.workerPanic "boom")).stop.2.stop.1 =
      .err (.external "preload thread is already stopped") ∧
    (∀ msg, (ImageDataPreloader.new 7 (.workerPanic "boom")).stop.2.stop.1 ≠
      RunRes.panicked msg) :=
  C8_stop_idempotent (ImageDataPreloader.new 7 (.workerPanic "boom"))
    (.workerPanic "boom") rfl

/-- C10: for every run of the preload worker whose elapsed wall time is
strictly less than one second when the loop exits normally (completion or
cancellation), `duration.as_secs() = 0`, the final throughput computation
divides by zero and the worker panics instead of recording the data rate
and returning. -/
theorem C10_throughput_divide_by_zero (max_preload_bytes : Nat)
    (bo fo : Bool) (inputs : List IterInput) (b : Nat)
    (hexit : preload_loop max_preload_bytes inputs 0 = .completed b ∨
             preload_loop max_preload_bytes inputs 0 = .cancelled b)
    (hbo : bo = true) (hfo : fo = true) :
    preload_data max_preload_bytes bo fo inputs 0 =
      some (.panicked "attempt to divide by zero", ⟨b, 0⟩) := by
  subst hbo hfo
  rcases hexit with h | h <;> simp [preload_data, h]

/-- Witness for C10: a zero-byte cap completes the loop on the first
iteration, and a sub-second elapsed time panics the worker. -/
theorem C10_throughput_divide_by_zero_witness :
    preload_data 0 true true [.ok] 0 =
      some (.panicked "attempt to divide by zero", ⟨0, 0⟩) :=
  C10_throughput_divide_by_zero 0 true true [.ok] 0 (.inl (by decide))
    rfl rfl


/-- Every trace `resume_system` emits is one of the seven prefixes of the
full success trace listed in `sysTraces`. -/
theorem resume_system_trace_mem (s : ConductorState) (env : SystemEnv) :
    (resume_system s env).1 ∈ sysTraces := by
  unfold resume_system
  by_cases h1 : env.hibermetaLvOk
  case neg => simp [h1, sysTraces]
  by_cases h2 : env.logFileOk
  case neg => simp [h1, h2, sysTraces]
  by_cases h3 : env.powerdOk
  case neg => simp [h1, h2, h3, sysTraces]
  rcases hp : s.imagePreloader with - | p
  · simp [h1, h2, h3, hp, sysTraces]
  rcases hh : p.handle with - | j
  · simp [h1, h2, h3, hp, ImageDataPreloader.stop, hh, sysTraces]
  by_cases h4 : env.snapshotWriteOk
  case neg => simp [h1, h2, h3, hp, ImageDataPreloader.stop, hh, h4, sysTraces]
  by_cases h5 : env.loadImageOk
  case neg => simp [h1, h2, h3, hp, ImageDataPreloader.stop, hh, h4, h5, sysTraces]
  by_cases h6 : env.resumeReadyOk
  case neg => simp [h1, h2, h3, hp, ImageDataPreloader.stop, hh, h4, h5, h6, sysTraces]
  by_cases h7 : env.freezeOk
  case neg => simp [h1, h2, h3, hp, ImageDataPreloader.stop, hh, h4, h5, h6, h7, sysTraces]
  by_cases h8 : env.timestampOk
  case neg => simp [h1, h2, h3, hp, ImageDataPreloader.stop, hh, h4, h5, h6, h7, h8, sysTraces]
  by_cases h9 : env.metricsFlushOk
  case neg => simp [h1, h2, h3, hp, ImageDataPreloader.stop, hh, h4, h5, h6, h7, h8, h9, sysTraces]
  by_cases h10 : env.restoreTimestampOk
  case neg =>
    simp [h1, h2, h3, hp, ImageDataPreloader.stop, hh, h4, h5, h6, h7, h8, h9, h10, sysTraces]
  by_cases h11 : s.dryRun
  case pos =>
    simp [h1, h2, h3, hp, ImageDataPreloader.stop, hh, h4, h5, h6, h7, h8, h9, h10, h11, sysTraces]
  by_cases h12 : env.atomicRestoreOk
  case neg =>
    simp [h1, h2, h3, hp, ImageDataPreloader.stop, hh, h4, h5, h6, h7, h8, h9, h10, h11, h12,
      sysTraces]
  simp [h1, h2, h3, hp, ImageDataPreloader.stop, hh, h4, h5, h6, h7, h8, h9, h10, h11, h12,
    sysTraces]

/-- `setup_snapshot_device` either fails having emitted no event, or
succeeds having emitted exactly its reconfiguration event. -/
theorem setup_snapshot_device_trace (new_hiberimage : Bool)
    (s : ConductorState) (a b : Bool) :
    ((setup_snapshot_device new_hiberimage s a b).1 = [] ∧
      ∀ u, (setup_snapshot_device new_hiberimage s a b).2.1 ≠ .ok u) ∨
    ((setup_snapshot_device new_hiberimage s a b).1 =
        [Event.setupSnapshotDevice new_hiberimage] ∧
      (setup_snapshot_device new_hiberimage s a b).2.1 = .ok ()) := by
  unfold setup_snapshot_device
  rcases hf : s.tpmSeedFile with - | buf
  · simp [get_tpm_derived_integrity_key, hf]
  by_cases hl : buf.length = TPM_SEED_SIZE
  case neg => simp [get_tpm_derived_integrity_key, hf, hl]
  by_cases ha : a
  case neg => simp [get_tpm_derived_integrity_key, hf, hl, ha]
  by_cases hb : b
  case neg => simp [get_tpm_derived_integrity_key, hf, hl, ha, hb]
  simp [get_tpm_derived_integrity_key, hf, hl, ha, hb]

/-- A successful `setup_snapshot_device` emitted exactly its
reconfiguration event. -/
theorem setup_ok_trace {new_hiberimage : Bool} {s : ConductorState}
    {a b : Bool} {u : Unit}
    (h : (setup_snapshot_device new_hiberimage s a b).2.1 = .ok u) :
    (setup_snapshot_device new_hiberimage s a b).1 =
      [Event.setupSnapshotDevice new_hiberimage] := by
  rcases setup_snapshot_device_trace new_hiberimage s a b with ⟨-, hn⟩ | ⟨ht, -⟩
  · exact absurd h (hn u)
  · exact ht

/-- `setup_snapshot_device` emits at most its reconfiguration event. -/
theorem setup_trace_cases (new_hiberimage : Bool) (s : ConductorState)
    (a b : Bool) :
    (setup_snapshot_device new_hiberimage s a b).1 = [] ∨
    (setup_snapshot_device new_hiberimage s a b).1 =
      [Event.setupSnapshotDevice new_hiberimage] := by
  rcases setup_snapshot_device_trace new_hiberimage s a b with ⟨ht, -⟩ | ⟨ht, -⟩
  exacts [Or.inl ht, Or.inr ht]

/-- The no-resume cleanup tail emits at most the re-arm reconfiguration
event. -/
theorem resume_failure_tail_trace (e : RError) (s : ConductorState)
    (env : ResumeEnv) :
    (resume_failure_tail e s env).1 = [] ∨
    (resume_failure_tail e s env).1 = [Event.setupSnapshotDevice true] := by
  unfold resume_failure_tail
  by_cases h1 : env.thinpoolRwOk
  case neg => simp [h1]
  by_cases h2 : env.teardownOk
  case neg => simp [h1, h2]
  simp only [h1, h2, not_true, if_false, ite_false, if_neg, not_false_eq_true, ite_true]
  split
  case _ u heq =>
    rw [setup_ok_trace heq]
    repeat' split
    all_goals simp
  case _ r heq => exact setup_trace_cases true _ _ _

/-- Helper: a preloader stop followed by an optional re-arm event is an
`authTraces` member. -/
theorem mem_auth_ps_cons {t : List Event}
    (h : t = [] ∨ t = [Event.setupSnapshotDevice true]) :
    Event.preloaderStopped :: t ∈ authTraces := by
  rcases h with h | h <;> rw [h] <;> decide

/-- Every trace of the no-resume cleanup path is an `authTraces` member. -/
theorem resume_failure_path_mem (e : RError) (s : ConductorState)
    (env : ResumeEnv) :
    (resume_failure_path e s env).1 ∈ authTraces := by
  unfold resume_failure_path
  rcases hp : s.imagePreloader with - | p
  · simp only [hp]
    rcases resume_failure_tail_trace e s env with h | h <;> rw [h] <;> decide
  · simp only [hp, ImageDataPreloader.stop]
    rcases hh : p.handle with - | j
    · simp only [hh]
      decide
    · simp only [hh]
      exact mem_auth_ps_cons (resume_failure_tail_trace _ _ _)

/-- Helper: `resume_system` traces extend to `authTraces` members under the
success-path events that precede them. -/
theorem authTraces_of_sysTraces : ∀ t ∈ sysTraces,
    (Event.setupSnapshotDevice false :: Event.lockProcessMemory :: t) ∈
      authTraces := by decide

/-- Helper: a `setup_snapshot_device(false, ..)` trace alone is an
`authTraces` member. -/
theorem mem_auth_of_setup_cases {t : List Event}
    (h : t = [] ∨ t = [Event.setupSnapshotDevice false]) : t ∈ authTraces := by
  rcases h with h | h <;> rw [h] <;> decide

/-- Every trace of the resume preparation-and-launch tail is an
`authTraces` member. -/
theorem resume_prepare_mem (s : ConductorState) (env : ResumeEnv) :
    (resume_prepare_and_launch s env).1 ∈ authTraces := by
  unfold resume_prepare_and_launch
  by_cases h1 : env.lockdownFalseOk
  case neg =>
    simp only [h1]
    simp
    split
    case _ u heq =>
      rw [setup_ok_trace heq]
      decide
    case _ r heq => exact mem_auth_of_setup_cases (setup_trace_cases false _ _ _)
  by_cases h2 : env.lockMemoryOk
  case neg =>
    simp only [h1, h2]
    simp
    split
    case _ u heq =>
      rw [setup_ok_trace heq]
      decide
    case _ r heq => exact mem_auth_of_setup_cases (setup_trace_cases false _ _ _)
  simp only [h1, h2]
  simp
  split
  case _ u heq =>
    rw [setup_ok_trace heq]
    simp only [List.cons_append, List.nil_append]
    exact authTraces_of_sysTraces _ (resume_system_trace_mem _ _)
  case _ r heq => exact mem_auth_of_setup_cases (setup_trace_cases false _ _ _)

/-- Every trace `resume_auth_and_beyond` emits is listed in `authTraces`. -/
theorem resume_auth_trace_mem (san : String → String) (s : ConductorState)
    (env : ResumeEnv) :
    (resume_auth_and_beyond san s env).1 ∈ authTraces := by
  unfold resume_auth_and_beyond
  rcases hdb : env.dbusEvent with - | ev
  · simp [hdb, authTraces]
  rcases ev with ⟨aid, sid⟩ | ⟨reason⟩
  · -- userAuthenticated
    simp only [hdb]
    by_cases hk : env.userKeyOk
    case neg => simp [hk, authTraces]
    by_cases hc : s.cookie = HibernateCookieValue.ResumeInProgress
    · rcases hr : s.hibernatingUserFile with - | hu
      · simp [hk, decide_to_resume, hc, hr]
        exact resume_failure_path_mem _ _ _
      · by_cases hne : san aid = hu
        · simp [hk, decide_to_resume, hc, hr, hne]
          exact resume_prepare_mem _ _
        · simp [hk, decide_to_resume, hc, hr, hne]
          exact resume_failure_path_mem _ _ _
    · by_cases hd : s.dryRun
      · simp [hk, decide_to_resume, hc, hd]
        exact resume_prepare_mem _ _
      · by_cases hn : s.cookie = HibernateCookieValue.NoResume
        · simp [hk, decide_to_resume, hc, hd, hn]
          exact resume_failure_path_mem _ _ _
        · simp [hk, decide_to_resume, hc, hd, hn]
          exact resume_failure_path_mem _ _ _
  · -- abortRequest
    simp only [hdb]
    rcases hp : s.imagePreloader with - | p
    · simp [hp, authTraces]
    · rcases hh : p.handle with - | j
      · simp [hp, ImageDataPreloader.stop, hh, authTraces]
      · simp [hp, ImageDataPreloader.stop, hh, authTraces]

/-- Helper: an `authTraces` member preceded by the preloader start is an
`innerTraces` member. -/
theorem mem_inner_cons {t : List Event} (h : t ∈ authTraces) :
    Event.startPreloader :: t ∈ innerTraces :=
  List.mem_append_right _ (List.mem_map_of_mem _ h)

/-- Every trace `resume_inner` emits is listed in `innerTraces`. -/
theorem resume_inner_trace_mem (san : String → String) (s : ConductorState)
    (env : ResumeEnv) :
    (resume_inner san s env).1 ∈ innerTraces := by
  unfold resume_inner
  by_cases hc : s.cookie = HibernateCookieValue.ResumeInProgress
  · simp only [hc, ite_true, if_pos]
    split
    · simp [innerTraces, authTraces]
    · exact mem_inner_cons (resume_auth_trace_mem _ _ _)
  · simp only [hc, ite_false, if_neg, not_false_eq_true]
    exact List.mem_append_left _ (resume_auth_trace_mem _ _ _)


/-- C2: in every execution of `resume_system` that reaches the freeze step,
the `ResumeAborting` tombstone cookie write happens strictly after the
snapshot image was loaded (`load_image` returned) and strictly before
userspace is frozen. -/
theorem C2_tombstone_between_load_and_freeze (s : ConductorState)
    (env : SystemEnv)
    (h : Event.freezeUserspace ∈ (resume_system s env).1) :
    Event.loadImage ∈ (resume_system s env).1 ∧
    Event.setCookie HibernateCookieValue.ResumeAborting ∈
      (resume_system s env).1 ∧
    (resume_system s env).1.indexOf Event.loadImage <
      (resume_system s env).1.indexOf
        (Event.setCookie HibernateCookieValue.ResumeAborting) ∧
    (resume_system s env).1.indexOf
        (Event.setCookie HibernateCookieValue.ResumeAborting) <
      (resume_system s env).1.indexOf Event.freezeUserspace := by
  have key : ∀ t ∈ sysTraces, Event.freezeUserspace ∈ t →
      Event.loadImage ∈ t ∧
      Event.setCookie HibernateCookieValue.ResumeAborting ∈ t ∧
      t.indexOf Event.loadImage <
        t.indexOf (Event.setCookie HibernateCookieValue.ResumeAborting) ∧
      t.indexOf (Event.setCookie HibernateCookieValue.ResumeAborting) <
        t.indexOf Event.freezeUserspace := by decide
  exact key _ (resume_system_trace_mem s env) h

/-- Witness for C2 on the all-success environment. -/
theorem C2_tombstone_between_load_and_freeze_witness :
    Event.freezeUserspace ∈ (resume_system sPre sysEnv0).1 ∧
    (Event.loadImage ∈ (resume_system sPre sysEnv0).1 ∧
     Event.setCookie HibernateCookieValue.ResumeAborting ∈
       (resume_system sPre sysEnv0).1 ∧
     (resume_system sPre sysEnv0).1.indexOf Event.loadImage <
       (resume_system sPre sysEnv0).1.indexOf
         (Event.setCookie HibernateCookieValue.ResumeAborting) ∧
     (resume_system sPre sysEnv0).1.indexOf
         (Event.setCookie HibernateCookieValue.ResumeAborting) <
       (resume_system sPre sysEnv0).1.indexOf Event.freezeUserspace) :=
  ⟨by decide, C2_tombstone_between_load_and_freeze sPre sysEnv0 (by decide)⟩

/-- C1 as stated is false: the counterexample is the all-success execution
from `s0`/`env0`, which reaches the atomic restore yet stops the preloader
only after `setup_snapshot_device(false, ..)` and `lock_process_memory`. -/
theorem C1_counterexample : ¬ C1Statement := by
  intro h
  have h2 := (h (fun x => x) s0 env0 (by decide)).2
  have h3 : ¬ fullyStoppedBefore (resume_inner (fun x => x) s0 env0).1
      Event.lockProcessMemory := by
    unfold fullyStoppedBefore
    decide
  exact h3 h2

/-- C1 (amended): in every execution of `resume_inner` that loads the
image, the preloader is fully stopped (signalled and joined) strictly
before the snapshot device is opened in write mode and strictly before
`load_image`, but only after the snapshot-device reconfiguration
(`setup_snapshot_device(false, ..)`) and after process memory is pinned
with `lock_process_memory`. -/
theorem C1_preloader_stop_order (san : String → String)
    (s : ConductorState) (env : ResumeEnv)
    (h : Event.loadImage ∈ (resume_inner san s env).1) :
    Event.preloaderStopped ∈ (resume_inner san s env).1 ∧
    (resume_inner san s env).1.indexOf (Event.setupSnapshotDevice false) <
      (resume_inner san s env).1.indexOf Event.preloaderStopped ∧
    (resume_inner san s env).1.indexOf Event.lockProcessMemory <
      (resume_inner san s env).1.indexOf Event.preloaderStopped ∧
    (resume_inner san s env).1.indexOf Event.preloaderStopped <
      (resume_inner san s env).1.indexOf Event.openSnapshotDeviceWrite ∧
    (resume_inner san s env).1.indexOf Event.preloaderStopped <
      (resume_inner san s env).1.indexOf Event.loadImage := by
  have key : ∀ t ∈ innerTraces, Event.loadImage ∈ t →
      Event.preloaderStopped ∈ t ∧
      t.indexOf (Event.setupSnapshotDevice false) <
        t.indexOf Event.preloaderStopped ∧
      t.indexOf Event.lockProcessMemory < t.indexOf Event.preloaderStopped ∧
      t.indexOf Event.preloaderStopped <
        t.indexOf Event.openSnapshotDeviceWrite ∧
      t.indexOf Event.preloaderStopped < t.indexOf Event.loadImage := by
    decide
  exact key _ (resume_inner_trace_mem san s env) h

/-- Witness for the amended C1 on the all-success execution. -/
theorem C1_preloader_stop_order_witness :
    Event.loadImage ∈ (resume_inner (fun x => x) s0 env0).1 ∧
    (Event.preloaderStopped ∈ (resume_inner (fun x => x) s0 env0).1 ∧
     (resume_inner (fun x => x) s0 env0).1.indexOf
         (Event.setupSnapshotDevice false) <
       (resume_inner (fun x => x) s0 env0).1.indexOf
         Event.preloaderStopped ∧
     (resume_inner (fun x => x) s0 env0).1.indexOf Event.lockProcessMemory <
       (resume_inner (fun x => x) s0 env0).1.indexOf
         Event.preloaderStopped ∧
     (resume_inner (fun x => x) s0 env0).1.indexOf Event.preloaderStopped <
       (resume_inner (fun x => x) s0 env0).1.indexOf
         Event.openSnapshotDeviceWrite ∧
     (resume_inner (fun x => x) s0 env0).1.indexOf Event.preloaderStopped <
       (resume_inner (fun x => x) s0 env0).1.indexOf Event.loadImage) :=
  ⟨by decide, C1_preloader_stop_order (fun x => x) s0 env0 (by decide)⟩

/-- C9: calling `resume` with the dry-run option while the cookie holds any
value other than `ResumeInProgress` starts no preloader, yet
`decide_to_resume` returns `Ok` due to the override, and — when every
external call up to that point succeeds — `resume_system` panics on
`self.image_preloader.take().unwrap()` instead of returning an error or
completing the dry run. -/
theorem C9_dry_run_unwrap_panic (san : String → String)
    (s : ConductorState) (env : ResumeEnv) (aid sid : String)
    (seed : List Nat)
    (hd : s.dryRun = true)
    (hc : s.cookie ≠ HibernateCookieValue.ResumeInProgress)
    (hp : s.imagePreloader = none)
    (hdb : env.dbusEvent = some (.userAuthenticated aid sid))
    (hk : env.userKeyOk = true)
    (hseed : s.tpmSeedFile = some seed) (hlen : seed.length = TPM_SEED_SIZE)
    (h1 : env.setupHiberimageFalseOk = true)
    (h2 : env.setBlockDeviceFalseOk = true)
    (h3 : env.lockdownFalseOk = true) (h4 : env.lockMemoryOk = true)
    (h5 : env.sys.hibermetaLvOk = true) (h6 : env.sys.logFileOk = true)
    (h7 : env.sys.powerdOk = true) :
    (decide_to_resume { s with currentUser := some (san aid) }).1 = .ok () ∧
    Event.startPreloader ∉ (resume_inner san s env).1 ∧
    (resume_inner san s env).2.1 =
      .panicked "called Option::unwrap() on a None value" := by
  refine ⟨by simp [decide_to_resume, hc, hd], ?_, ?_⟩ <;>
    simp [resume_inner, resume_auth_and_beyond, resume_prepare_and_launch,
      setup_snapshot_device, get_tpm_derived_integrity_key, resume_system,
      decide_to_resume, hd, hc, hp, hdb, hk, hseed, hlen, h1, h2, h3, h4,
      h5, h6, h7]

/-- Witness for C9: concrete dry-run boot with a `NoResume` cookie. -/
theorem C9_dry_run_unwrap_panic_witness :
    (decide_to_resume { s9 with currentUser := some "user" }).1 = .ok () ∧
    Event.startPreloader ∉ (resume_inner (fun x => x) s9 env0).1 ∧
    (resume_inner (fun x => x) s9 env0).2.1 =
      .panicked "called Option::unwrap() on a None value" :=
  C9_dry_run_unwrap_panic (fun x => x) s9 env0 "user" "sess"
    (List.replicate 32 0) rfl (by decide) rfl rfl rfl rfl (by decide)
    rfl rfl rfl rfl rfl rfl rfl

end Hiberman
